import Mathlib

/-!
Verification development for the Poseidon2 log-ingestion clients
(`src/helpers/udp_logger.py` and `src/helpers/ws_logger.py`).

The Python scripts are shallowly embedded as pure Lean functions:

* the log-level priority table and the minimum-level filter comparison are
  shared verbatim between the two scripts and embedded once;
* the broadcast (UDP) receive loop is embedded twice, at two levels of
  abstraction: `udpStep`/`udpRun` model the loop on schema-conforming
  datagrams (integer or absent `timestamp`, string or absent `level`, per the
  documented message schema), while `udpStepB`/`udpRunB` model the same loop
  over arbitrary decoded Python values, including Python's dynamic-typing
  exceptions (`AttributeError`, `TypeError`), which on this path are uncaught
  and terminate the process;
* the streaming (WebSocket) per-message handler, its receive loop, the
  server-filter control calls and the reconnect loop are embedded as
  `wsHandle`/`wsReceive`, `set_server_filter`/`controlCalls`/`sessionStart`
  and `receiveLoop`/`sessionTrace`.

Transport, JSON decoding and terminal rendering are external collaborators:
messages enter the model tagged with their decode outcome (not UTF-8 /
UTF-8-but-not-JSON / a decoded Python value), and presentation is modelled as
abstract output events rather than rendered strings.  Floating-point division
by `1000.0` is modelled over `Rat` (exact on the integer inputs involved).
-/

namespace Poseidon2

/-- Numeric priority for a log level string, `get_log_level_priority`
(udp_logger.py lines 89-98; duplicated verbatim in ws_logger.py lines
119-128): `priorities.get(level, -1)` over the five known severities. -/
def get_log_level_priority (level : String) : Int :=
  if level = "DEBUG" then 0
  else if level = "INFO" then 1
  else if level = "WARN" then 2
  else if level = "ERROR" then 3
  else if level = "FATAL" then 4
  else -1

/-- Severity filter decision used by both receive loops: a record is shown
unless `log_priority < min_priority` (udp_logger.py lines 170-175,
ws_logger.py lines 276-281), with `min_priority` the priority of the
configured minimum level. -/
def passesFilter (level minLevel : String) : Bool :=
  !(get_log_level_priority level < get_log_level_priority minLevel)

/-- A broadcast datagram that decoded to a JSON object conforming to the
documented message schema, restricted to the two fields the receive loop
itself reads: `timestamp` (`log_data.get('timestamp', 0)`, the device's u64
milliseconds) and `level` (`log_data.get('level', 'UNKNOWN')`).  The
remaining fields (`component`, `event`, `data`) feed only the out-of-scope
presenter `format_log_message`. -/
structure LogRecord where
  timestamp : Nat
  level : String
  deriving Repr, DecidableEq

/-- Loss-detection state of the broadcast loop: `last_timestamp` and the
`packets_dropped` loss-event counter (udp_logger.py lines 145, 147). -/
structure LossState where
  last_timestamp : Nat
  packets_dropped : Nat
  deriving Repr, DecidableEq

/-- A detected loss event: the printed warning carries the gap in seconds
`(timestamp - last_timestamp) / 1000.0` together with the previous and
current device timestamps (udp_logger.py lines 163-167). -/
structure LossEvent where
  gapSeconds : Rat
  previous : Nat
  current : Nat
  deriving Repr, DecidableEq

/-- Loss-detection step of the broadcast loop (udp_logger.py lines 160-168):
if `last_timestamp > 0 and timestamp > last_timestamp + 10000`, count a loss
event and report the gap; in every case assign
`last_timestamp = timestamp` afterwards. -/
def observe (s : LossState) (timestamp : Nat) : LossState × Option LossEvent :=
  if s.last_timestamp > 0 ∧ timestamp > s.last_timestamp + 10000 then
    ({ last_timestamp := timestamp, packets_dropped := s.packets_dropped + 1 },
     some { gapSeconds := ((timestamp : Rat) - (s.last_timestamp : Rat)) / 1000,
            previous := s.last_timestamp, current := timestamp })
  else
    ({ s with last_timestamp := timestamp }, none)

/-- Folds `observe` over a list of record timestamps, collecting the emitted
loss events in order. -/
def observeAll : LossState → List Nat → LossState × List LossEvent
  | s, [] => (s, [])
  | s, t :: ts =>
    let step := observe s t
    let rest := observeAll step.1 ts
    (rest.1, step.2.toList ++ rest.2)

/-- Observable outputs of the broadcast loop body: the packet-loss warning
line, an emitted record (formatted, or the raw JSON line in `--json` mode),
the `RAW:` fallback for text that is not valid JSON, and the `BINARY:` hex
fallback for datagrams that are not valid UTF-8. -/
inductive UdpOut where
  | lossWarning (gapSeconds : Rat) (previous current : Nat)
  | logLine (r : LogRecord)
  | rawText (text : String)
  | binaryHex
  deriving Repr, DecidableEq

/-- A received broadcast datagram, tagged by its decode outcome: a
schema-conforming JSON object (as a `LogRecord`), UTF-8 text that is not
valid JSON (`json.JSONDecodeError`), or bytes that are not valid UTF-8
(`UnicodeDecodeError`). -/
inductive Datagram where
  | record (r : LogRecord)
  | malformed (text : String)
  | binary
  deriving Repr, DecidableEq

/-- Per-session state of the broadcast loop: the spec's LossTracker
(udp_logger.py lines 145-147). -/
structure UdpState where
  last_timestamp : Nat
  packets_received : Nat
  packets_dropped : Nat
  deriving Repr, DecidableEq

/-- Projection of the broadcast session state onto the loss-detection
fields. -/
def UdpState.lossState (s : UdpState) : LossState :=
  { last_timestamp := s.last_timestamp, packets_dropped := s.packets_dropped }

/-- Body of the broadcast receive loop for one datagram (udp_logger.py lines
150-189): increment `packets_received` for every datagram; for a parsed
record run loss detection (with the warning print suppressed in `--json`
mode but the counter still updated), then apply the severity filter and emit
the record if it passes; for undecodable input emit the `RAW:`/`BINARY:`
fallback. -/
def udpStep (min_priority : Int) (jsonMode : Bool) (s : UdpState) (d : Datagram) :
    UdpState × List UdpOut :=
  let s1 : UdpState := { s with packets_received := s.packets_received + 1 }
  match d with
  | .malformed text => (s1, [.rawText text])
  | .binary => (s1, [.binaryHex])
  | .record r =>
    let step := observe s1.lossState r.timestamp
    let s2 : UdpState := { last_timestamp := step.1.last_timestamp,
                           packets_received := s1.packets_received,
                           packets_dropped := step.1.packets_dropped }
    let warn : List UdpOut :=
      match step.2 with
      | some e => if jsonMode then [] else [.lossWarning e.gapSeconds e.previous e.current]
      | none => []
    let shown : List UdpOut :=
      if get_log_level_priority r.level < min_priority then [] else [.logLine r]
    (s2, warn ++ shown)

/-- Folds the broadcast loop body over a sequence of received datagrams. -/
def udpRun (min_priority : Int) (jsonMode : Bool) : UdpState → List Datagram → UdpState × List UdpOut
  | s, [] => (s, [])
  | s, d :: ds =>
    let step := udpStep min_priority jsonMode s d
    let rest := udpRun min_priority jsonMode step.1 ds
    (rest.1, step.2 ++ rest.2)

/-- Initial broadcast session state (udp_logger.py lines 145-147). -/
def udpInit : UdpState :=
  { last_timestamp := 0, packets_received := 0, packets_dropped := 0 }

/-! Dynamic layer: the same loops over arbitrary decoded Python values.
`json.loads` can return any JSON value, not just an object; the scripts
index into the result without checking its type, so Python's dynamic-typing
exceptions become part of the observable behaviour and are modelled
explicitly below. -/

/-- A decoded Python value as produced by `json.loads`: string, integer,
boolean, array or object (an association list of string keys, duplicate-free
after JSON decoding).  JSON floats and null do not occur in any behaviour
the claims exercise and are omitted. -/
inductive PyVal where
  | pstr (s : String)
  | pint (n : Int)
  | pbool (b : Bool)
  | plist (xs : List PyVal)
  | pdict (entries : List (String × PyVal))

/-- Exceptions the scripts can raise past their `except` clauses when a
decoded value has an unexpected type. -/
inductive PyErr where
  | attributeError
  | typeError
  | keyError
  deriving Repr, DecidableEq

/-- Python equality test of a value against a string literal: `==` between a
non-string and a string is `False`, never an error. -/
def PyVal.eqStr : PyVal → String → Bool
  | .pstr s, t => s == t
  | _, _ => false

/-- Substring containment, Python's `needle in hay` for strings. -/
def strContains (hay needle : String) : Bool :=
  (hay.splitOn needle).length > 1

/-- Python `value.get(key, default)`: only dictionaries have `.get`; every
other value raises `AttributeError`. -/
def pyGetD (v : PyVal) (key : String) (dflt : PyVal) : Except PyErr PyVal :=
  match v with
  | .pdict es =>
    match es.lookup key with
    | some x => .ok x
    | none => .ok dflt
  | _ => .error .attributeError

/-- Python `key in value` for a string key: key membership for a dictionary,
substring test for a string, element equality for a list, `TypeError` for
non-container values. -/
def pyContains (v : PyVal) (key : String) : Except PyErr Bool :=
  match v with
  | .pdict es => .ok (es.any fun p => p.1 == key)
  | .pstr s => .ok (strContains s key)
  | .plist xs => .ok (xs.any fun x => x.eqStr key)
  | .pint _ => .error .typeError
  | .pbool _ => .error .typeError

/-- Python `value[key]` for a string key: dictionary lookup (`KeyError` when
absent); indexing a string or list with a string, or subscripting a scalar,
raises `TypeError`. -/
def pyIndex (v : PyVal) (key : String) : Except PyErr PyVal :=
  match v with
  | .pdict es =>
    match es.lookup key with
    | some x => .ok x
    | none => .error .keyError
  | _ => .error .typeError

/-- Numeric reading of a Python value where arithmetic/comparison with an
int is defined: ints themselves and bools (`True == 1`, `False == 0`). -/
def pyNum : PyVal → Option Int
  | .pint n => some n
  | .pbool b => some (if b then 1 else 0)
  | _ => none

/-- Python `a > b`: numeric comparison when both sides are numeric,
lexicographic comparison when both are strings, `TypeError` otherwise. -/
def pyGt (a b : PyVal) : Except PyErr Bool :=
  match pyNum a, pyNum b with
  | some x, some y => .ok (decide (y < x))
  | _, _ =>
    match a, b with
    | .pstr s, .pstr t => .ok (decide (t < s))
    | _, _ => .error .typeError

/-- Python `a + b` for the value shapes that can reach the loss-detection
arithmetic: numeric addition, string and list concatenation, `TypeError`
otherwise. -/
def pyAdd (a b : PyVal) : Except PyErr PyVal :=
  match pyNum a, pyNum b with
  | some x, some y => .ok (.pint (x + y))
  | _, _ =>
    match a, b with
    | .pstr s, .pstr t => .ok (.pstr (s ++ t))
    | .plist s, .plist t => .ok (.plist (s ++ t))
    | _, _ => .error .typeError

/-- Python `a - b`: numeric subtraction only. -/
def pySub (a b : PyVal) : Except PyErr PyVal :=
  match pyNum a, pyNum b with
  | some x, some y => .ok (.pint (x - y))
  | _, _ => .error .typeError

/-- Lookup of a level string in the `priorities` dictionary,
`priorities.get(level, -1)`, for an arbitrary decoded `level` value: any
hashable non-string key misses the table and yields -1; unhashable values
(lists, dictionaries) raise `TypeError`. -/
def pyLevelPriority : PyVal → Except PyErr Int
  | .pstr s => .ok (get_log_level_priority s)
  | .pint _ => .ok (-1)
  | .pbool _ => .ok (-1)
  | .plist _ => .error .typeError
  | .pdict _ => .error .typeError

/-- A received broadcast datagram in the dynamic layer, tagged by its decode
outcome: undecodable bytes, UTF-8 text that is not valid JSON, or the
decoded Python value together with the raw message text. -/
inductive UdpMsg where
  | binary
  | notJson (raw : String)
  | jsonVal (raw : String) (v : PyVal)

/-- Observable outputs of the broadcast loop body in the dynamic layer. -/
inductive UdpOutB where
  | lossWarning (gapSeconds : Rat)
  | jsonLine (raw : String)
  | logLine (v : PyVal)
  | rawText (text : String)
  | binaryHex

/-- Broadcast session state in the dynamic layer: Python's `last_timestamp`
variable holds whatever value the last record's `timestamp` field carried,
so it is a `PyVal`, not an integer. -/
structure UdpStateB where
  last_timestamp : PyVal
  packets_received : Nat
  packets_dropped : Nat

/-- Initial broadcast session state in the dynamic layer
(`last_timestamp = 0`). -/
def udpInitB : UdpStateB :=
  { last_timestamp := .pint 0, packets_received := 0, packets_dropped := 0 }

/-- Body of the broadcast receive loop for one datagram over arbitrary
decoded values (udp_logger.py lines 150-189).  The inner `try` catches only
`json.JSONDecodeError` and `UnicodeDecodeError`; any other exception (from
`log_data.get` on a non-object, or from comparing a non-numeric timestamp)
propagates, which `udpRunB` models as an `Except.error`. -/
def udpStepB (min_priority : Int) (jsonMode : Bool) (s : UdpStateB) (m : UdpMsg) :
    Except PyErr (UdpStateB × List UdpOutB) :=
  let s1 : UdpStateB := { s with packets_received := s.packets_received + 1 }
  match m with
  | .binary => .ok (s1, [.binaryHex])
  | .notJson raw => .ok (s1, [.rawText raw])
  | .jsonVal raw v => do
    let timestamp ← pyGetD v "timestamp" (.pint 0)
    let hot ← pyGt s1.last_timestamp (.pint 0)
    let gapHit ←
      if hot then do
        let bound ← pyAdd s1.last_timestamp (.pint 10000)
        pyGt timestamp bound
      else pure false
    let warn : List UdpOutB ←
      if gapHit then do
        let diff ← pySub timestamp s1.last_timestamp
        let gap : Int := (pyNum diff).getD 0
        pure (if jsonMode then [] else [.lossWarning ((gap : Rat) / 1000)])
      else pure []
    let s2 : UdpStateB :=
      { last_timestamp := timestamp,
        packets_received := s1.packets_received,
        packets_dropped := if gapHit then s1.packets_dropped + 1 else s1.packets_dropped }
    let lv ← pyGetD v "level" (.pstr "UNKNOWN")
    let p ← pyLevelPriority lv
    if p < min_priority then pure (s2, warn)
    else if jsonMode then pure (s2, warn ++ [.jsonLine raw])
    else pure (s2, warn ++ [.logLine v])

/-- Folds the dynamic broadcast loop body over received datagrams.  An
`Except.error` outcome models an uncaught exception: on this path the outer
`try` catches only `KeyboardInterrupt`, so the process terminates with a
traceback and the remaining datagrams are never handled. -/
def udpRunB (min_priority : Int) (jsonMode : Bool) :
    UdpStateB → List UdpMsg → Except PyErr (UdpStateB × List UdpOutB)
  | s, [] => .ok (s, [])
  | s, m :: ms => do
    let step ← udpStepB min_priority jsonMode s m
    let rest ← udpRunB min_priority jsonMode step.1 ms
    pure (rest.1, step.2 ++ rest.2)

/-! Streaming (WebSocket) path: per-message handler, receive loop,
server-filter control calls, and the reconnect loop of `main_async`. -/

/-- A received streaming message, tagged by its JSON-decode outcome
(`json.loads(message.strip())` either raises `JSONDecodeError` or returns a
Python value); `raw` is the message text. -/
inductive WsMsg where
  | notJson (raw : String)
  | jsonVal (raw : String) (v : PyVal)

/-- Observable outputs of the streaming per-message handler: the handshake
banner (not a log line), a structured log line, the raw JSON passthrough
line, the `RAW:` fallback for non-JSON text, and the `Error:` line printed
by the blanket `except Exception` in `receive_logs` when an exception aborts
the receive loop. -/
inductive WsOut where
  | handshakeNote
  | logLine (v : PyVal)
  | jsonLine (raw : String)
  | rawFallback (raw : String)
  | errorNote (e : PyErr)

/-- True exactly for the outputs that display a record as a log line
(structured or raw JSON mode). -/
def isDisplayOut : WsOut → Bool
  | .logLine _ => true
  | .jsonLine _ => true
  | _ => false

/-- Filter-and-present tail of the streaming handler (ws_logger.py lines
276-288): read `level` with default `'UNKNOWN'`, compare its priority with
the client-side minimum, and emit the message if it passes. -/
def wsPresent (jsonMode : Bool) (min_priority : Int) (raw : String) (v : PyVal) :
    Except PyErr (List WsOut) :=
  match pyGetD v "level" (.pstr "UNKNOWN") with
  | .error e => .error e
  | .ok lv =>
    match pyLevelPriority lv with
    | .error e => .error e
    | .ok p =>
      if p < min_priority then .ok []
      else if jsonMode then .ok [.jsonLine raw]
      else .ok [.logLine v]

/-- Streaming per-message handler (ws_logger.py lines 266-292): parse
failures fall back to the `RAW:` line; then
`if 'status' in log_data and log_data['status'] == 'connected'` intercepts
the handshake (printing its banner only outside `--json` mode) before
any filtering; otherwise filter and present.  The inner `try` catches only
`JSONDecodeError`, so any dynamic-typing exception escapes as an error. -/
def wsHandle (jsonMode : Bool) (min_priority : Int) (m : WsMsg) : Except PyErr (List WsOut) :=
  match m with
  | .notJson raw => .ok [.rawFallback raw]
  | .jsonVal raw v =>
    match pyContains v "status" with
    | .error e => .error e
    | .ok true =>
      match pyIndex v "status" with
      | .error e => .error e
      | .ok sv =>
        if sv.eqStr "connected" then .ok (if jsonMode then [] else [.handshakeNote])
        else wsPresent jsonMode min_priority raw v
    | .ok false => wsPresent jsonMode min_priority raw v

/-- Receive loop of one streaming connection (ws_logger.py lines 263-301):
`packets_received` is incremented for every message before it is handled; an
exception escaping the handler is caught by the blanket `except Exception`,
which prints an `Error:` line and ends the connection cycle, returning the
count — the offending message and the rest of the cycle are not displayed.
Returns the final `packets_received` together with the outputs in order. -/
def wsReceive (jsonMode : Bool) (min_priority : Int) : Nat → List WsMsg → Nat × List WsOut
  | n, [] => (n, [])
  | n, m :: ms =>
    match wsHandle jsonMode min_priority m with
    | .error e => (n + 1, [.errorNote e])
    | .ok outs =>
      let rest := wsReceive jsonMode min_priority (n + 1) ms
      (rest.1, outs ++ rest.2)

/-- The three optional server-filter fields the client may carry
(`--level`, `--components`, `--events`). -/
structure FilterParams where
  level : Option String
  components : Option String
  events : Option String
  deriving Repr, DecidableEq

/-- True when no server-filter field was supplied: `set_server_filter`
builds an empty `params` dictionary and returns `True` without any network
call (ws_logger.py lines 195-205). -/
def FilterParams.isEmptyParams (p : FilterParams) : Bool :=
  p.level.isNone && p.components.isNone && p.events.isNone

/-- JSON-decode outcome of an HTTP response body. -/
inductive JsonOutcome where
  | notJson
  | val (v : PyVal)

/-- Outcome of the HTTP round trip performed by the filter controller:
an HTTP error status, a connection failure/timeout, or a response body with
its decode outcome. -/
inductive HttpResp where
  | httpError (code : Nat)
  | connError
  | body (text : String) (decoded : JsonOutcome)

/-- Result handling of `set_server_filter` (ws_logger.py lines 179-243):
empty parameters succeed without a request; HTTP and connection errors
return `False`; a response body succeeds exactly when it decodes to an
object whose `status` field equals `"ok"` — a non-JSON body, a non-object
body (whose `.get` raises) and a missing or different `status` all fall to
`False` via the handlers, never to an uncaught exception. -/
def set_server_filter (p : FilterParams) (resp : HttpResp) : Bool :=
  if p.isEmptyParams then true
  else
    match resp with
    | .httpError _ => false
    | .connError => false
    | .body _ outcome =>
      match outcome with
      | .notJson => false
      | .val v =>
        match v with
        | .pdict es =>
          match es.lookup "status" with
          | some sv => sv.eqStr "ok"
          | none => false
        | _ => false

/-- The caller-supplied configuration of `main_async` that drives the
control calls and the reconnect loop. -/
structure WsArgs where
  no_server_filter : Bool
  level : Option String
  components : Option String
  events : Option String
  reconnect : Bool
  deriving Repr, DecidableEq

/-- A control operation against the device's `/log-filter` endpoint. -/
inductive CtrlCall where
  | applyCall
  | fetchCall
  deriving Repr, DecidableEq

/-- Which control operations `main_async` performs before entering the
receive loop (ws_logger.py lines 311-326): none under `--no-server-filter`;
one `set_server_filter` when any of level/components/events was supplied;
one `get_server_filter` otherwise. -/
def controlCalls (a : WsArgs) : List CtrlCall :=
  if a.no_server_filter then []
  else if a.level.isSome || a.components.isSome || a.events.isSome then [.applyCall]
  else [.fetchCall]

/-- Observable milestones of the session-start phase of `main_async`: the
warning printed when `set_server_filter` fails, and entry into the receive
loop. -/
inductive StartOut where
  | applyWarning
  | enteredLoop
  deriving Repr, DecidableEq

/-- Session-start phase of `main_async` (ws_logger.py lines 311-333): apply
or fetch the server filter per `controlCalls`; a failed apply produces only
the warning `Failed to set server filter, continuing anyway`; in every case
control falls through to the receive loop. -/
def sessionStart (a : WsArgs) (resp : HttpResp) : List StartOut :=
  let warn : List StartOut :=
    if a.no_server_filter then []
    else if a.level.isSome || a.components.isSome || a.events.isSome then
      if set_server_filter { level := a.level, components := a.components, events := a.events } resp
      then [] else [.applyWarning]
    else []
  warn ++ [.enteredLoop]

/-- Events of a full streaming session: a control call, one completed
connection cycle with the packet count `receive_logs` returned, and the
fixed back-off sleep (its duration in seconds). -/
inductive SessEvent where
  | ctrl (c : CtrlCall)
  | cycle (packets : Nat)
  | backoff (seconds : Nat)
  deriving Repr, DecidableEq

/-- Reconnect loop of `main_async` (ws_logger.py lines 333-357): each
element of `cycles` is the packet count one `receive_logs` call returned
(both clean closes and connection errors return a count rather than
raising).  With `--reconnect` every cycle is followed by the fixed 5-second
back-off and another connection attempt, without bound; otherwise the loop
breaks after the first cycle. -/
def receiveLoop (reconnect : Bool) : List Nat → List SessEvent
  | [] => []
  | c :: cs =>
    if reconnect then .cycle c :: .backoff 5 :: receiveLoop reconnect cs
    else [.cycle c]

/-- Full session trace: the control calls happen once, strictly before the
receive loop (ws_logger.py lines 311-357). -/
def sessionTrace (a : WsArgs) (cycles : List Nat) : List SessEvent :=
  (controlCalls a).map .ctrl ++ receiveLoop a.reconnect cycles

/-- Running total of received messages accumulated across connection cycles
(`total_packets += packets`, ws_logger.py line 336). -/
def totalPackets : List SessEvent → Nat
  | [] => 0
  | .cycle c :: es => c + totalPackets es
  | _ :: es => totalPackets es

/-- True exactly for connection-cycle events. -/
def isCycleEvent : SessEvent → Bool
  | .cycle _ => true
  | _ => false

/-- True exactly for control-call events. -/
def isCtrlEvent : SessEvent → Bool
  | .ctrl _ => true
  | _ => false

/-- Number of connection cycles a session trace contains. -/
def numCycles (tr : List SessEvent) : Nat := tr.countP isCycleEvent

/-! Helper lemmas shared by the claim theorems. -/

/-- Association-list lookup success implies the key-membership test used by
`pyContains` succeeds. -/
theorem lookup_imp_any {β : Type} {es : List (String × β)} {k : String} {v : β}
    (h : es.lookup k = some v) : (es.any fun p => p.1 == k) = true := by
  induction es with
  | nil => simp [List.lookup] at h
  | cons hd tl ih =>
    obtain ⟨a, b⟩ := hd
    by_cases hk : k = a
    · subst hk
      simp
    · have hne : (k == a) = false := by simp [hk]
      rw [List.lookup, hne] at h
      have htl := ih h
      simp [htl]

/-- The reconnect loop emits no control-call events: the server-filter
operations happen only in the session-start phase. -/
theorem receiveLoop_no_ctrl (r : Bool) (cycles : List Nat) :
    (receiveLoop r cycles).countP isCtrlEvent = 0 := by
  induction cycles with
  | nil => simp [receiveLoop]
  | cons c cs ih => cases r <;> simp [receiveLoop, isCtrlEvent, List.countP_cons, ih]

/-- Unfolding of the broadcast loop body's outputs on a parsed record: the
loss warning (suppressed in json mode) followed by the record itself when it
passes the severity filter. -/
theorem udpStep_record_out (p : Int) (j : Bool) (s : UdpState) (r : LogRecord) :
    (udpStep p j s (.record r)).2 =
      (match (observe s.lossState r.timestamp).2 with
        | some e => if j then [] else [UdpOut.lossWarning e.gapSeconds e.previous e.current]
        | none => []) ++
      (if get_log_level_priority r.level < p then [] else [UdpOut.logLine r]) := rfl

/-- C1: the filter evaluator passes a record iff the numeric priority of its
level is at least the priority of the minimum level, with
DEBUG=0, INFO=1, WARN=2, ERROR=3, FATAL=4 and every unrecognized or missing
level (which defaults to the string UNKNOWN) at priority -1; consequently
such a record is filtered out for every standard selectable minimum level
DEBUG..FATAL.  The fourth conjunct grounds the evaluator in the broadcast
loop body: the record line is emitted exactly when the filter passes. -/
theorem c1_filter_evaluator :
    (get_log_level_priority "DEBUG" = 0 ∧ get_log_level_priority "INFO" = 1 ∧
      get_log_level_priority "WARN" = 2 ∧ get_log_level_priority "ERROR" = 3 ∧
      get_log_level_priority "FATAL" = 4) ∧
    (∀ s : String, s ≠ "DEBUG" → s ≠ "INFO" → s ≠ "WARN" → s ≠ "ERROR" → s ≠ "FATAL" →
      get_log_level_priority s = -1) ∧
    (∀ level minLevel : String,
      passesFilter level minLevel = true ↔
        get_log_level_priority minLevel ≤ get_log_level_priority level) ∧
    (∀ (minLevel : String) (jm : Bool) (s : UdpState) (r : LogRecord),
      UdpOut.logLine r ∈ (udpStep (get_log_level_priority minLevel) jm s (.record r)).2 ↔
        passesFilter r.level minLevel = true) ∧
    (∀ s L : String, s ≠ "DEBUG" → s ≠ "INFO" → s ≠ "WARN" → s ≠ "ERROR" → s ≠ "FATAL" →
      L ∈ ["DEBUG", "INFO", "WARN", "ERROR", "FATAL"] → passesFilter s L = false) := by
  refine ⟨by decide, ?_, ?_, ?_, ?_⟩
  · intro s h1 h2 h3 h4 h5
    simp [get_log_level_priority, h1, h2, h3, h4, h5]
  · intro level minLevel
    simp [passesFilter, not_lt]
  · intro minLevel jm s r
    rw [udpStep_record_out]
    cases hev : (observe s.lossState r.timestamp).2 with
    | none =>
      by_cases hp : get_log_level_priority r.level < get_log_level_priority minLevel <;>
        simp [hp, passesFilter]
    | some e =>
      by_cases hp : get_log_level_priority r.level < get_log_level_priority minLevel <;>
        cases jm <;> simp [hp, passesFilter]
  · intro s L h1 h2 h3 h4 h5 hL
    have hs : get_log_level_priority s = -1 := by
      simp [get_log_level_priority, h1, h2, h3, h4, h5]
    simp only [List.mem_cons, List.not_mem_nil, or_false] at hL
    rcases hL with rfl | rfl | rfl | rfl | rfl <;>
      · simp only [passesFilter, hs]
        decide

/-- C1 witness: an unrecognized level string has priority -1 and is filtered
out at the DEBUG minimum level. -/
theorem c1_witness :
    get_log_level_priority "TRACE" = -1 ∧ passesFilter "TRACE" "DEBUG" = false :=
  ⟨c1_filter_evaluator.2.1 "TRACE" (by decide) (by decide) (by decide) (by decide) (by decide),
   c1_filter_evaluator.2.2.2.2 "TRACE" "DEBUG" (by decide) (by decide) (by decide) (by decide)
     (by decide) (by decide)⟩

/-- C2: the loss detector emits no event and only records the timestamp when
`lastTimestampMillis` is 0; on observations from a nonzero
`lastTimestampMillis` it emits an event and increments the loss counter
exactly when the record's timestamp exceeds `lastTimestampMillis + 10000`,
with `gapSeconds` the difference divided by 1000; timestamps [0, 5000, 9000]
yield zero events, [0, 5000, 20000] yield exactly one with gapSeconds 15,
and the first observed timestamp never triggers an event. -/
theorem c2_loss_detector :
    (∀ (s : LossState) (ts : Nat), s.last_timestamp = 0 →
      observe s ts = ({ last_timestamp := ts, packets_dropped := s.packets_dropped }, none)) ∧
    (∀ (s : LossState) (ts : Nat), s.last_timestamp ≠ 0 →
      (s.last_timestamp + 10000 < ts →
        observe s ts =
          ({ last_timestamp := ts, packets_dropped := s.packets_dropped + 1 },
           some { gapSeconds := ((ts : Rat) - (s.last_timestamp : Rat)) / 1000,
                  previous := s.last_timestamp, current := ts })) ∧
      (¬ s.last_timestamp + 10000 < ts →
        observe s ts = ({ last_timestamp := ts, packets_dropped := s.packets_dropped }, none))) ∧
    (observeAll { last_timestamp := 0, packets_dropped := 0 } [0, 5000, 9000]).2 = [] ∧
    (observeAll { last_timestamp := 0, packets_dropped := 0 } [0, 5000, 20000]).2 =
      [{ gapSeconds := 15, previous := 5000, current := 20000 }] ∧
    (∀ ts : Nat, (observe { last_timestamp := 0, packets_dropped := 0 } ts).2 = none) := by
  refine ⟨?_, ?_, by decide, by norm_num [observeAll, observe], ?_⟩
  · intro s ts h
    simp [observe, h]
  · intro s ts h
    have pos : 0 < s.last_timestamp := Nat.pos_of_ne_zero h
    refine ⟨fun hgt => ?_, fun hng => ?_⟩
    · unfold observe
      rw [if_pos ⟨pos, hgt⟩]
    · unfold observe
      rw [if_neg fun hc => hng hc.2]
  · intro ts
    simp [observe]

/-- C2 witness: at `lastTimestampMillis = 0` the observation of 7 only
records the timestamp; from 5000 the observation of 20000 emits the loss
event with a 15-second gap. -/
theorem c2_witness :
    observe { last_timestamp := 0, packets_dropped := 3 } 7 =
      ({ last_timestamp := 7, packets_dropped := 3 }, none) ∧
    observe { last_timestamp := 5000, packets_dropped := 0 } 20000 =
      ({ last_timestamp := 20000, packets_dropped := 1 },
       some { gapSeconds := ((20000 : Rat) - (5000 : Rat)) / 1000,
              previous := 5000, current := 20000 }) :=
  ⟨c2_loss_detector.1 { last_timestamp := 0, packets_dropped := 3 } 7 rfl,
   (c2_loss_detector.2.1 { last_timestamp := 5000, packets_dropped := 0 } 20000
     (by decide)).1 (by decide)⟩

/-- C3 counterexample: the LossTracker state (packetsReceived,
lastTimestampMillis, lossEvents) is NOT mutated only by the Loss Detector on
accepted records — a malformed datagram, which is never a successfully
parsed record and never reaches the loss-detection step, still changes the
state by incrementing `packetsReceived` (udp_logger.py line 153 runs before
the parse attempt). -/
theorem c3_counterexample :
    (udpStep 1 false udpInit (Datagram.malformed "not json")).1 =
      { last_timestamp := 0, packets_received := 1, packets_dropped := 0 } ∧
    (udpStep 1 false udpInit (Datagram.malformed "not json")).1 ≠ udpInit := by
  constructor <;> decide

/-- C3 amended: `packetsReceived` is incremented for every received
datagram, malformed or binary ones included; the session state is otherwise
mutated only by the loss-detection step, which runs for every successfully
parsed record before and regardless of the display-filter decision (the
state is independent of the filter level and of the output mode, and a
malformed or binary datagram leaves `lastTimestampMillis` and `lossEvents`
unchanged); the state is never reset within a session.  The final conjunct
is the spec scenario: timestamps 0, 3000, 3100 at filter level INFO with the
record at 3100 at level DEBUG — suppressed from the output but still counted
in `packetsReceived` and checked for loss. -/
theorem c3_amended :
    (∀ (p : Int) (j : Bool) (s : UdpState) (d : Datagram),
      (udpStep p j s d).1.packets_received = s.packets_received + 1) ∧
    (∀ (p q : Int) (j k : Bool) (s : UdpState) (d : Datagram),
      (udpStep p j s d).1 = (udpStep q k s d).1) ∧
    (∀ (p : Int) (j : Bool) (s : UdpState) (r : LogRecord),
      (udpStep p j s (.record r)).1 =
        { last_timestamp := (observe s.lossState r.timestamp).1.last_timestamp,
          packets_received := s.packets_received + 1,
          packets_dropped := (observe s.lossState r.timestamp).1.packets_dropped }) ∧
    (∀ (p : Int) (j : Bool) (s : UdpState) (text : String),
      (udpStep p j s (.malformed text)).1.last_timestamp = s.last_timestamp ∧
      (udpStep p j s (.malformed text)).1.packets_dropped = s.packets_dropped) ∧
    (∀ (p : Int) (j : Bool) (s : UdpState),
      (udpStep p j s .binary).1.last_timestamp = s.last_timestamp ∧
      (udpStep p j s .binary).1.packets_dropped = s.packets_dropped) ∧
    (udpRun 1 false udpInit
        [Datagram.record { timestamp := 0, level := "INFO" },
         Datagram.record { timestamp := 3000, level := "INFO" },
         Datagram.record { timestamp := 3100, level := "DEBUG" }] =
      ({ last_timestamp := 3100, packets_received := 3, packets_dropped := 0 },
       [UdpOut.logLine { timestamp := 0, level := "INFO" },
        UdpOut.logLine { timestamp := 3000, level := "INFO" }])) := by
  refine ⟨?_, ?_, ?_, ?_, ?_, by decide⟩
  · intro p j s d
    cases d <;> rfl
  · intro p q j k s d
    cases d <;> rfl
  · intro p j s r
    rfl
  · intro p j s text
    exact ⟨rfl, rfl⟩
  · intro p j s
    exact ⟨rfl, rfl⟩

/-- C4 counterexample: `lastTimestampMillis` is not a monotonic high-water
mark — observing a record whose timestamp is 0 (the default for a missing
`timestamp` field) from state 5000 lowers it to 0, because the assignment
`last_timestamp = timestamp` is unconditional (udp_logger.py line 168). -/
theorem c4_counterexample :
    (observe { last_timestamp := 5000, packets_dropped := 0 } 0).1.last_timestamp = 0 ∧
    (observe { last_timestamp := 5000, packets_dropped := 0 } 0).1.last_timestamp <
      ({ last_timestamp := 5000, packets_dropped := 0 } : LossState).last_timestamp := by
  constructor <;> decide

/-- C4 amended: `lastTimestampMillis` is set to the observed record's
timestamp after every comparison regardless of outcome; it is therefore not
monotonic — a record with a smaller timestamp (for instance a missing
timestamp defaulting to 0) lowers it, as the second conjunct exhibits. -/
theorem c4_amended :
    (∀ (s : LossState) (ts : Nat), (observe s ts).1.last_timestamp = ts) ∧
    (observe { last_timestamp := 5000, packets_dropped := 0 } 0).1.last_timestamp = 0 := by
  refine ⟨?_, by decide⟩
  intro s ts
  unfold observe
  split <;> rfl

/-- C5 evaluation at the failing input: a message whose text is "42" is
valid JSON but not a JSON object.  On the broadcast path
`log_data.get('timestamp', 0)` raises `AttributeError`, which no handler
catches — the process crashes and the raw text is never emitted.  On the
streaming path `'status' in log_data` raises `TypeError`, which the blanket
`except Exception` in `receive_logs` turns into an `Error:` line that ends
the connection cycle — the message (and, as the second conjunct shows, every
later message of the cycle) is dropped without a raw fallback.  Both
diverge from the claimed raw-text fallback with no crash and no drop. -/
theorem c5_code_bug_eval :
    udpRunB 0 false udpInitB [UdpMsg.jsonVal "42" (.pint 42)] =
      .error .attributeError ∧
    wsReceive false 0 0 [WsMsg.jsonVal "42" (.pint 42)] =
      (1, [.errorNote .typeError]) ∧
    wsReceive false 0 0 [WsMsg.jsonVal "42" (.pint 42), WsMsg.notJson "later text"] =
      (1, [.errorNote .typeError]) := by
  refine ⟨rfl, rfl, rfl⟩

/-- C6 counterexample: the handshake message does affect the session's
counter — receiving only `{"status":"connected"}` leaves `packets_received`
at 1, not 0, because the increment (ws_logger.py line 264) happens before
the handshake check (lines 271-274). -/
theorem c6_counterexample :
    (wsReceive false 1 0
        [WsMsg.jsonVal "\x7b\"status\": \"connected\"\x7d"
          (.pdict [("status", .pstr "connected")])]).1 = 1 ∧
    (wsReceive false 1 0 []).1 = 0 ∧
    (wsReceive false 1 0
        [WsMsg.jsonVal "\x7b\"status\": \"connected\"\x7d"
          (.pdict [("status", .pstr "connected")])]).1 ≠
      (wsReceive false 1 0 []).1 := by
  refine ⟨rfl, rfl, by decide⟩

/-- C6 amended: the handshake message is intercepted before filtering and
presentation — its handling is independent of the minimum priority and its
only output is the handshake banner (suppressed in json mode), never a log
line — but it does count towards the session's received-message counter
like every other message. -/
theorem c6_amended :
    (∀ (jm : Bool) (mp : Int) (raw : String) (es : List (String × PyVal)),
      es.lookup "status" = some (.pstr "connected") →
        wsHandle jm mp (.jsonVal raw (.pdict es)) =
          .ok (if jm then [] else [.handshakeNote])) ∧
    (∀ (jm : Bool) (mp : Int) (n : Nat) (m : WsMsg),
      (wsReceive jm mp n [m]).1 = n + 1) := by
  constructor
  · intro jm mp raw es h
    have hany := lookup_imp_any h
    simp [wsHandle, pyContains, hany, pyIndex, h, PyVal.eqStr]
  · intro jm mp n m
    cases hm : wsHandle jm mp m with
    | error e => simp [wsReceive, hm]
    | ok outs => simp [wsReceive, hm]

/-- C6 witness: the concrete handshake dictionary is handled into exactly
the banner at minimum level INFO, and a single message raises the counter
from 7 to 8. -/
theorem c6_witness :
    wsHandle false 1 (.jsonVal "x" (.pdict [("status", .pstr "connected")])) =
      .ok [.handshakeNote] ∧
    (wsReceive true 4 7 [WsMsg.notJson "zzz"]).1 = 8 :=
  ⟨c6_amended.1 false 1 "x" [("status", .pstr "connected")] rfl,
   c6_amended.2 true 4 7 (WsMsg.notJson "zzz")⟩

/-- C7: `set_server_filter` succeeds on a well-formed (JSON object) response
body exactly when its `status` field equals "ok"; HTTP errors, connection
errors, non-JSON bodies and non-object bodies are all soft failures
returning false rather than raising; and the session-start caller always
reaches the receive loop, emitting only a warning when the apply failed. -/
theorem c7_apply_filter :
    (∀ (p : FilterParams) (text : String) (es : List (String × PyVal)),
      p.isEmptyParams = false →
        (set_server_filter p (.body text (.val (.pdict es))) = true ↔
          es.lookup "status" = some (.pstr "ok"))) ∧
    (∀ (p : FilterParams) (code : Nat) (text : String) (n : Int),
      p.isEmptyParams = false →
        set_server_filter p (.httpError code) = false ∧
        set_server_filter p .connError = false ∧
        set_server_filter p (.body text .notJson) = false ∧
        set_server_filter p (.body text (.val (.pint n))) = false) ∧
    (∀ (a : WsArgs) (resp : HttpResp), StartOut.enteredLoop ∈ sessionStart a resp) ∧
    (∀ (a : WsArgs) (resp : HttpResp),
      a.no_server_filter = false →
      (a.level.isSome || a.components.isSome || a.events.isSome) = true →
      set_server_filter
          { level := a.level, components := a.components, events := a.events } resp = false →
      sessionStart a resp = [.applyWarning, .enteredLoop]) := by
  refine ⟨?_, ?_, ?_, ?_⟩
  · intro p text es hp
    simp only [set_server_filter, hp, Bool.false_eq_true, if_false]
    cases hl : es.lookup "status" with
    | none => simp
    | some sv => cases sv <;> simp [PyVal.eqStr]
  · intro p code text n hp
    refine ⟨?_, ?_, ?_, ?_⟩ <;> simp [set_server_filter, hp]
  · intro a resp
    simp [sessionStart]
  · intro a resp h1 h2 h3
    simp [sessionStart, h1, h2, h3]

/-- C7 witness: a body with status "ok" succeeds; with a connection error
the apply fails softly and the session start warns and still enters the
receive loop. -/
theorem c7_witness :
    set_server_filter { level := some "WARN", components := none, events := none }
        (.body "resp" (.val (.pdict [("status", .pstr "ok")]))) = true ∧
    sessionStart
        { no_server_filter := false, level := some "WARN", components := none,
          events := none, reconnect := false } .connError =
      [.applyWarning, .enteredLoop] :=
  ⟨(c7_apply_filter.1 { level := some "WARN", components := none, events := none } "resp"
      [("status", .pstr "ok")] rfl).2 rfl,
   c7_apply_filter.2.2.2
     { no_server_filter := false, level := some "WARN", components := none,
       events := none, reconnect := false } .connError rfl rfl rfl⟩

/-- C8 counterexample: with `--no-server-filter` set, supplying a level does
not lead to an apply call — neither control operation is performed, against
the claim that supplied filter fields always trigger exactly one apply. -/
theorem c8_counterexample :
    controlCalls
        { no_server_filter := true, level := some "DEBUG", components := none,
          events := none, reconnect := false } = [] ∧
    controlCalls
        { no_server_filter := true, level := some "DEBUG", components := none,
          events := none, reconnect := false } ≠ [CtrlCall.applyCall] := by
  constructor <;> decide

/-- C8 amended: unless `--no-server-filter` is set, session start performs
exactly one apply call when any of level/components/events was supplied and
exactly one fetch call otherwise; with `--no-server-filter` it performs
neither; and the number of control calls in a full session trace equals that
of the start phase for every number of reconnect cycles — control calls are
never repeated per reconnect. -/
theorem c8_amended :
    (∀ a : WsArgs, a.no_server_filter = false →
      (a.level.isSome || a.components.isSome || a.events.isSome) = true →
      controlCalls a = [.applyCall]) ∧
    (∀ a : WsArgs, a.no_server_filter = false →
      (a.level.isSome || a.components.isSome || a.events.isSome) = false →
      controlCalls a = [.fetchCall]) ∧
    (∀ a : WsArgs, a.no_server_filter = true → controlCalls a = []) ∧
    (∀ (a : WsArgs) (cycles : List Nat),
      (sessionTrace a cycles).countP isCtrlEvent = (controlCalls a).length) := by
  refine ⟨?_, ?_, ?_, ?_⟩
  · intro a h1 h2
    simp [controlCalls, h1, h2]
  · intro a h1 h2
    simp [controlCalls, h1, h2]
  · intro a h1
    simp [controlCalls, h1]
  · intro a cycles
    simp [sessionTrace, List.countP_append, List.countP_map, receiveLoop_no_ctrl,
      Function.comp_def, isCtrlEvent, List.countP_true]

/-- C8 witness: supplying only a level performs exactly the one apply call,
and a session with three reconnect cycles still contains exactly one
control-call event. -/
theorem c8_witness :
    controlCalls
        { no_server_filter := false, level := some "DEBUG", components := none,
          events := none, reconnect := true } = [CtrlCall.applyCall] ∧
    (sessionTrace
        { no_server_filter := false, level := some "DEBUG", components := none,
          events := none, reconnect := true } [4, 0, 9]).countP isCtrlEvent = 1 := by
  constructor
  · exact c8_amended.1
      { no_server_filter := false, level := some "DEBUG", components := none,
        events := none, reconnect := true } rfl rfl
  · have h := c8_amended.2.2.2
      { no_server_filter := false, level := some "DEBUG", components := none,
        events := none, reconnect := true } [4, 0, 9]
    rw [h]
    decide

/-- C9: with auto-reconnect every completed connection cycle is followed by
the fixed 5-second back-off and another connection attempt, for any number
of cycles (no retry cap); the running total accumulates the packet counts of
all cycles; every back-off in the trace is exactly 5 seconds; and without
auto-reconnect the loop ends after the first cycle. -/
theorem c9_streaming_reconnect :
    (∀ (c : Nat) (cs : List Nat),
      receiveLoop true (c :: cs) = .cycle c :: .backoff 5 :: receiveLoop true cs) ∧
    (∀ cycles : List Nat, numCycles (receiveLoop true cycles) = cycles.length) ∧
    (∀ cycles : List Nat, totalPackets (receiveLoop true cycles) = cycles.sum) ∧
    (∀ (cycles : List Nat) (sec : Nat),
      SessEvent.backoff sec ∈ receiveLoop true cycles → sec = 5) ∧
    (∀ (c : Nat) (cs : List Nat), receiveLoop false (c :: cs) = [.cycle c]) := by
  refine ⟨?_, ?_, ?_, ?_, ?_⟩
  · intro c cs
    simp [receiveLoop]
  · intro cycles
    induction cycles with
    | nil => rfl
    | cons c cs ih => simp [receiveLoop, numCycles, List.countP_cons, isCycleEvent] at ih ⊢; omega
  · intro cycles
    induction cycles with
    | nil => rfl
    | cons c cs ih => simp [receiveLoop, totalPackets, ih]
  · intro cycles
    induction cycles with
    | nil => intro sec h; simp [receiveLoop] at h
    | cons c cs ih =>
      intro sec h
      simp only [receiveLoop, if_true, List.mem_cons] at h
      rcases h with h | h | h
      · cases h
      · cases h; rfl
      · exact ih sec h
  · intro c cs
    simp [receiveLoop]

/-- C9 witness: two cycles of 2 and 3 packets under reconnect give two
connection cycles, a total of 5 packets, and the back-off between them is 5
seconds. -/
theorem c9_witness :
    numCycles (receiveLoop true [2, 3]) = 2 ∧
    totalPackets (receiveLoop true [2, 3]) = 5 ∧ (5 : Nat) = 5 :=
  ⟨c9_streaming_reconnect.2.1 [2, 3], c9_streaming_reconnect.2.2.1 [2, 3],
   c9_streaming_reconnect.2.2.2.1 [2, 3] 5 (by decide)⟩

/-- C10: on the streaming path, any decoded JSON object whose top-level
`status` key holds "connected" is treated as the handshake even when it also
carries log fields: its handling does not depend on the minimum priority
(never filtered), its result is exactly the banner (or nothing in json
mode), and none of its outputs is a displayed log line in either output
mode. -/
theorem c10_handshake_skip :
    ∀ (jm : Bool) (mp mq : Int) (raw : String) (es : List (String × PyVal)),
      es.lookup "status" = some (.pstr "connected") →
        wsHandle jm mp (.jsonVal raw (.pdict es)) =
          .ok (if jm then [] else [.handshakeNote]) ∧
        wsHandle jm mp (.jsonVal raw (.pdict es)) =
          wsHandle jm mq (.jsonVal raw (.pdict es)) ∧
        ((if jm then [] else [WsOut.handshakeNote]).all fun o => !(isDisplayOut o)) = true := by
  intro jm mp mq raw es h
  have hany := lookup_imp_any h
  have hmp : wsHandle jm mp (.jsonVal raw (.pdict es)) =
      .ok (if jm then [] else [.handshakeNote]) := by
    simp [wsHandle, pyContains, hany, pyIndex, h, PyVal.eqStr]
  have hmq : wsHandle jm mq (.jsonVal raw (.pdict es)) =
      .ok (if jm then [] else [.handshakeNote]) := by
    simp [wsHandle, pyContains, hany, pyIndex, h, PyVal.eqStr]
  refine ⟨hmp, hmp.trans hmq.symm, ?_⟩
  cases jm <;> decide

/-- C10 witness: a handshake object that also carries timestamp, level and
event fields is skipped in raw JSON mode (no output at all), even though its
FATAL level would pass any filter. -/
theorem c10_witness :
    wsHandle true 0 (.jsonVal "m"
        (.pdict [("timestamp", .pint 1000), ("level", .pstr "FATAL"),
                 ("status", .pstr "connected"), ("event", .pstr "Boot")])) = .ok [] :=
  (c10_handshake_skip true 0 7 "m"
    [("timestamp", .pint 1000), ("level", .pstr "FATAL"),
     ("status", .pstr "connected"), ("event", .pstr "Boot")] rfl).1

end Poseidon2
